import Mathlib

/-!
Verification of the realtime telemetry provider
(`src/providers/realtime-telemetry-provider.js`).

The JavaScript source is shallowly embedded: the provider's mutable fields
become a record `PState`, each method becomes a pure function from state to
state (returning, in addition, the list of control messages actually sent on
the socket during the call), and the WebSocket is abstracted by a send oracle
`Nat → Bool` telling, for each wire sequence number, whether `socket.send`
succeeds or throws.  External utilities from `../utils.js` (which is not part
of the sources under verification) are taken as function parameters; constants
from `../const` are modelled from the specification.
-/

namespace OpenMctYamcs

/-- `const WS_IDLE_INTERVAL_MS = 10000`. -/
def WS_IDLE_INTERVAL_MS : Nat := 10000

/-- `const FALLBACK_AND_WAIT_MS = [1000, 5000, 5000, 10000, 10000, 30000]`. -/
def FALLBACK_AND_WAIT_MS : List Nat := [1000, 5000, 5000, 10000, 10000, 30000]

/-- `MONITORING_RESULT_CSS`: CSS classes for Yamcs parameter monitoring result
values, as a lookup returning `none` for keys not in the object. -/
def MONITORING_RESULT_CSS : String → Option String
  | "WATCH" => some ("is-limit--yellow")
  | "WARNING" => some ("is-limit--yellow")
  | "DISTRESS" => some ("is-limit--red")
  | "CRITICAL" => some ("is-limit--red")
  | "SEVERE" => some ("is-limit--red")
  | _ => none

/-- `RANGE_CONDITION_CSS`: CSS classes for Yamcs range condition values. -/
def RANGE_CONDITION_CSS : String → Option String
  | "LOW" => some ("is-limit--lwr")
  | "HIGH" => some ("is-limit--upr")
  | _ => none

/-- One entry of `datum.alarmRange`.  Numeric bound fields are optional
(`none` models an absent property); the source tests them for JavaScript
truthiness, so a present `0` behaves like an absent field. -/
structure AlarmRange where
  level : String
  minInclusive : Option Int := none
  minExclusive : Option Int := none
  maxInclusive : Option Int := none
  maxExclusive : Option Int := none
deriving DecidableEq

/-- The limit-related fields of a telemetry datum handed to the evaluator. -/
structure Datum where
  monitoringResult : Option String := none
  rangeCondition : Option String := none
  alarmRange : Option (List AlarmRange) := none
deriving DecidableEq

/-- The object built by `LimitEvaluator.evaluate`. -/
structure EvaluationResult where
  cssClass : String
  name : String
  low : Option Int := none
  high : Option Int := none
deriving DecidableEq

/-- JavaScript truthiness of an optional numeric property: an absent field and
the number `0` are falsy, every other integer is truthy. -/
def jsTruthyNum : Option Int → Bool
  | none => false
  | some v => v != 0

/-- `LimitEvaluator.findAlarmRange`: finds the alarm range whose `level`
matches the monitoring result (`Array.prototype.find`). -/
def findAlarmRange (datum : Datum) (result : String) : Option AlarmRange :=
  match datum.alarmRange with
  | none => none
  | some ranges => ranges.find? (fun range => range.level == result)

/-- `LimitEvaluator.addLimitRange`: copies the matching alarm range's bounds
onto the evaluation result.  Each `if (range.f)` test is JavaScript
truthiness; the exclusive checks run after the inclusive ones, so a truthy
exclusive bound overwrites an inclusive one. -/
def addLimitRange (datum : Datum) (result : String)
    (evaluationResult : EvaluationResult) : EvaluationResult :=
  match findAlarmRange datum result with
  | none => evaluationResult
  | some range =>
    let er := if jsTruthyNum range.minInclusive then
        { evaluationResult with low := range.minInclusive }
      else evaluationResult
    let er := if jsTruthyNum range.minExclusive then
        { er with low := range.minExclusive }
      else er
    let er := if jsTruthyNum range.maxInclusive then
        { er with high := range.maxInclusive }
      else er
    let er := if jsTruthyNum range.maxExclusive then
        { er with high := range.maxExclusive }
      else er
    er

/-- `LimitEvaluator.evaluate`: returns an evaluation result when the datum
carries a truthy monitoring result that is a key of `MONITORING_RESULT_CSS`
(and appends range information when it also carries a recognized range
condition); otherwise returns nothing (`undefined`, modelled as `none`). -/
def evaluate (datum : Datum) : Option EvaluationResult :=
  match datum.monitoringResult with
  | none => none
  | some mr =>
    if mr != "" then
      match MONITORING_RESULT_CSS mr with
      | none => none
      | some css =>
        let evaluationResult : EvaluationResult := { cssClass := css, name := mr }
        match datum.rangeCondition with
        | none => some evaluationResult
        | some rc =>
          if rc != "" then
            match RANGE_CONDITION_CSS rc with
            | none => some evaluationResult
            | some rcss =>
              let evaluationResult :=
                { evaluationResult with
                    cssClass := evaluationResult.cssClass ++ " " ++ rcss }
              some (addLimitRange datum mr evaluationResult)
          else some evaluationResult
    else none

/-- Modelled from the spec: `OBJECT_TYPES.EVENTS_OBJECT_TYPE` comes from
`../const`, which is not among the sources under verification.  The spec calls
it "the distinguished event-channel identifier" and its end-to-end scenario
subscribes to it under the name "events". -/
def EVENTS_OBJECT_TYPE : String := "events"

/-- The provider's mutable fields (`constructor`).  Delivery callbacks are
identified by opaque `Nat` tokens.  `this.listener` (a plain JavaScript
object) is an insertion-ordered association list with unique keys;
`this.reconnectTimeout` (a timer handle that is truthy while set) is a
`Bool`; `this.keepAliveInterval` (the keepalive interval handle) is the
`Bool` `keepAliveArmed`.  The WebSocket object itself is abstracted by the
send oracle passed to the functions below. -/
structure PState where
  seqNo : Nat
  connected : Bool
  listener : List (String × Nat)
  requests : List String
  currentWaitIndex : Nat
  reconnectTimeout : Bool
  keepAliveArmed : Bool
deriving DecidableEq

/-- The state right after `new RealtimeTelemetryProvider(url, instance)`:
`seqNo = 0`, `connected = false`, empty listener map and request queue,
`currentWaitIndex = 0`, no reconnect timer, no keepalive interval. -/
def initState : PState :=
  { seqNo := 0, connected := false, listener := [], requests := [],
    currentWaitIndex := 0, reconnectTimeout := false, keepAliveArmed := false }

/-- Lookup in `this.listener` (`this.listener[id]`). -/
def lookupKey (l : List (String × Nat)) (id : String) : Option Nat :=
  (l.find? (fun p => p.1 == id)).map Prod.snd

/-- Assignment `this.listener[id] = callback` on a JavaScript object: if the
key is present its value is replaced in place, otherwise the pair is appended
(JavaScript string keys keep insertion order). -/
def setKey (l : List (String × Nat)) (id : String) (v : Nat) : List (String × Nat) :=
  if l.any (fun p => p.1 == id) then
    l.map (fun p => if p.1 == id then (id, v) else p)
  else l ++ [(id, v)]

/-- `delete this.listener[id]`. -/
def removeKey : List (String × Nat) → String → List (String × Nat)
  | [], _ => []
  | p :: ps, id => if p.1 == id then removeKey ps id else p :: removeKey ps id

/-- Number of entries stored for a given identifier. -/
def countKey (l : List (String × Nat)) (id : String) : Nat :=
  l.countP (fun p => p.1 == id)

/-- `sendRequest(request)`: increments `this.seqNo`, builds the payload
`[1, 1, seqNo, request]` and calls `this.socket.send(payload)`.  The oracle
tells whether the send succeeds or throws; the sequence number is incremented
in either case (`++this.seqNo` happens before the send can throw).  Returns
the updated state and whether the send succeeded. -/
def sendRequest (oracle : Nat → Bool) (s : PState) (request : String) : PState × Bool :=
  let seq := s.seqNo + 1
  ({ s with seqNo := seq }, oracle seq)

/-- `reconnect()`: no-op while `this.reconnectTimeout` is set; otherwise
arms the timer (scheduling `connect()` after
`FALLBACK_AND_WAIT_MS[this.currentWaitIndex]` milliseconds) and then
increments `currentWaitIndex` if it is below the length of the table. -/
def reconnect (s : PState) : PState :=
  if s.reconnectTimeout then s
  else if s.currentWaitIndex < FALLBACK_AND_WAIT_MS.length then
    { s with reconnectTimeout := true, currentWaitIndex := s.currentWaitIndex + 1 }
  else { s with reconnectTimeout := true }

/-- The delay `reconnect()` hands to `setTimeout`:
`FALLBACK_AND_WAIT_MS[this.currentWaitIndex]`.  `none` models the JavaScript
value `undefined` produced by indexing past the end of the array. -/
def scheduledReconnectDelay (s : PState) : Option Nat :=
  FALLBACK_AND_WAIT_MS.get? s.currentWaitIndex

/-- `sendOrQueueRequest(request)`: when connected, attempt the send; on a
synchronous send failure mark disconnected, push the request onto
`this.requests` and call `reconnect()`.  When not connected, push the request
unconditionally.  Also returns the list of control messages sent during the
call (empty or a singleton). -/
def sendOrQueueRequest (oracle : Nat → Bool) (s : PState) (request : String) :
    PState × List String :=
  if s.connected then
    let a := sendRequest oracle s request
    if a.2 then (a.1, [request])
    else
      (reconnect { a.1 with connected := false, requests := a.1.requests ++ [request] }, [])
  else
    ({ s with requests := s.requests ++ [request] }, [])

/-- The body of `flushQueue()`'s `this.requests.filter(...)` pass, processing
the queued requests in order while threading the provider state: a request
whose send succeeds is dropped from the queue (`return false`), a request
whose send throws marks the provider disconnected and is kept
(`return true`).  Returns the final state, the kept requests and the
successfully sent requests, each in original order. -/
def flushLoop (oracle : Nat → Bool) : PState → List String →
    PState × List String × List String
  | st, [] => (st, [], [])
  | st, request :: rest =>
    let a := sendRequest oracle st request
    if a.2 then
      let r := flushLoop oracle a.1 rest
      (r.1, r.2.1, request :: r.2.2)
    else
      let r := flushLoop oracle { a.1 with connected := false } rest
      (r.1, request :: r.2.1, r.2.2)

/-- `flushQueue()`: runs the filter pass over `this.requests`, stores the
kept requests back into `this.requests`, and — when some send failed
(`shouldReconnect`, equivalently: some request was kept) — calls
`reconnect()`.  Also returns the requests sent during the call. -/
def flushQueue (oracle : Nat → Bool) (s : PState) : PState × List String :=
  let r := flushLoop oracle { s with requests := [] } s.requests
  let st := { r.1 with requests := r.2.1 }
  (if r.2.1.isEmpty then st else reconnect st, r.2.2)

/-- Template interpolation of a possibly-missing JavaScript argument: an
argument that was not passed is `undefined` and stringifies to "undefined". -/
def jsArgString : Option String → String
  | none => "undefined"
  | some s => s

/-- The request string built by `idleTlmSubscribe()`. -/
def idleTlmSubscribeMsg : String :=
  "\x7b\"parameter\": \"subscribe\", \"data\": \x7b \"id\": [] \x7d\x7d"

/-- The request string built by `tlmSubscribe(id)` (a template literal
spanning three source lines, hence the embedded newlines and indentation). -/
def tlmSubscribeMsg (id : String) : String :=
  "\x7b\"parameter\": \"subscribe\",\n                     \"data\": \x7b \"id\": [\x7b \"name\": \""
    ++ id ++ "\" \x7d],\n                     \"sendFromCache\": false \x7d\x7d"

/-- The request string sent by `eventSubscribe()`. -/
def eventSubscribeMsg : String :=
  "\x7b\x27events\x27: \x27subscribe\x27\x7d"

/-- The request string built by `tlmUnsubscribe(id)`. -/
def tlmUnsubscribeMsg (id : String) : String :=
  "\x7b\"parameter\": \"unsubscribe\",\n                     \"data\": \x7b \"id\": [\x7b \"name\": \""
    ++ id ++ "\" \x7d] \x7d\x7d"

/-- The request string sent by `eventUnsubscribe()`. -/
def eventUnsubscribeMsg : String :=
  "\x7b\x27events\x27: \x27unsubscribe\x27\x7d"

/-- `idleTlmSubscribe()`. -/
def idleTlmSubscribe (oracle : Nat → Bool) (s : PState) : PState × List String :=
  sendOrQueueRequest oracle s idleTlmSubscribeMsg

/-- `tlmSubscribe(id)`. -/
def tlmSubscribe (oracle : Nat → Bool) (s : PState) (id : String) : PState × List String :=
  sendOrQueueRequest oracle s (tlmSubscribeMsg id)

/-- `eventSubscribe()`. -/
def eventSubscribe (oracle : Nat → Bool) (s : PState) : PState × List String :=
  sendOrQueueRequest oracle s eventSubscribeMsg

/-- `tlmUnsubscribe(id)`; the argument is `Option` because the only call
site in the source invokes it without an argument. -/
def tlmUnsubscribe (oracle : Nat → Bool) (s : PState) (id : Option String) :
    PState × List String :=
  sendOrQueueRequest oracle s (tlmUnsubscribeMsg (jsArgString id))

/-- `eventUnsubscribe()`. -/
def eventUnsubscribe (oracle : Nat → Bool) (s : PState) : PState × List String :=
  sendOrQueueRequest oracle s eventUnsubscribeMsg

/-- State effect of `subscribeToTelemetry(name, id)`: sends a subscribe
request only when connected; when not connected it does nothing (the returned
unsubscribe closure is modelled by `tlmUnsubHandle`). -/
def subscribeToTelemetry (oracle : Nat → Bool) (s : PState) (name : String) :
    PState × List String :=
  if s.connected then tlmSubscribe oracle s name else (s, [])

/-- State effect of `subscribeToEvent(id)`: sends the event subscribe request
only when connected. -/
def subscribeToEvent (oracle : Nat → Bool) (s : PState) : PState × List String :=
  if s.connected then eventSubscribe oracle s else (s, [])

/-- `subscribe(domainObject, callback)`: stores the callback under
`domainObject.identifier.key` (here `id`), then follows the event path for the
events identifier and the telemetry path (through the name translation
`idToQualifiedName`, passed as `trans` since `../utils.js` is not among the
sources under verification) for every other identifier. -/
def subscribe (oracle : Nat → Bool) (trans : String → String) (s : PState)
    (id : String) (cb : Nat) : PState × List String :=
  let s := { s with listener := setKey s.listener id cb }
  if id == EVENTS_OBJECT_TYPE then
    subscribeToEvent oracle s
  else
    subscribeToTelemetry oracle s (trans id)

/-- The unsubscribe closure returned by `subscribeToTelemetry`:
`() => { this.tlmUnsubscribe(); delete this.listener[id]; }`.  Note that
`tlmUnsubscribe` is invoked without its `id` argument. -/
def tlmUnsubHandle (oracle : Nat → Bool) (s : PState) (id : String) :
    PState × List String :=
  let a := tlmUnsubscribe oracle s none
  ({ a.1 with listener := removeKey a.1.listener id }, a.2)

/-- The unsubscribe closure returned by `subscribeToEvent`. -/
def eventUnsubHandle (oracle : Nat → Bool) (s : PState) (id : String) :
    PState × List String :=
  let a := eventUnsubscribe oracle s
  ({ a.1 with listener := removeKey a.1.listener id }, a.2)

/-- The `Object.keys(this.listener).forEach(...)` loop of
`resubscribeToAll()`, threading the state through the per-key sends. -/
def resubscribeLoop (oracle : Nat → Bool) (trans : String → String) :
    PState → List String → PState × List String
  | s, [] => (s, [])
  | s, id :: ids =>
    let a :=
      if id == EVENTS_OBJECT_TYPE then eventSubscribe oracle s
      else tlmSubscribe oracle s (trans id)
    let b := resubscribeLoop oracle trans a.1 ids
    (b.1, a.2 ++ b.2)

/-- `resubscribeToAll()`: one subscribe request per currently registered
listener key, the events identifier through `eventSubscribe` and every other
identifier through `tlmSubscribe(idToQualifiedName(id))`. -/
def resubscribeToAll (oracle : Nat → Bool) (trans : String → String) (s : PState) :
    PState × List String :=
  resubscribeLoop oracle trans s (s.listener.map Prod.fst)

/-- The `Object.keys(this.listener).forEach(...)` loop of `idleSubscribe()`
(the keepalive tick): the events identifier gets `eventSubscribe()`, every
other identifier gets `idleTlmSubscribe()`. -/
def idleLoop (oracle : Nat → Bool) : PState → List String → PState × List String
  | s, [] => (s, [])
  | s, id :: ids =>
    let a :=
      if id == EVENTS_OBJECT_TYPE then eventSubscribe oracle s
      else idleTlmSubscribe oracle s
    let b := idleLoop oracle a.1 ids
    (b.1, a.2 ++ b.2)

/-- `idleSubscribe()`. -/
def idleSubscribe (oracle : Nat → Bool) (s : PState) : PState × List String :=
  idleLoop oracle s (s.listener.map Prod.fst)

/-- `connect()` up to the creation of the socket: a no-op when already
connected, otherwise `seqNo` is reset and the state stays not connected while
the socket opens asynchronously. -/
def connectAttempt (s : PState) : PState :=
  if s.connected then s else { s with seqNo := 0, connected := false }

/-- The `socket.onopen` handler: cancels the pending reconnect timer with
`clearTimeout` (the `reconnectTimeout` field itself is not cleared there),
arms the keepalive interval, marks connected, resets `currentWaitIndex` to 0,
runs `resubscribeToAll()` and finally `flushQueue()`. -/
def onOpen (oracle : Nat → Bool) (trans : String → String) (s : PState) :
    PState × List String :=
  let s1 := { s with keepAliveArmed := true, connected := true, currentWaitIndex := 0 }
  let a := resubscribeToAll oracle trans s1
  let b := flushQueue oracle a.1
  (b.1, a.2 ++ b.2)

/-- The `socket.onerror` handler: marks disconnected and calls
`reconnect()` (it does not touch the keepalive interval). -/
def onError (s : PState) : PState :=
  reconnect { s with connected := false }

/-- The `socket.onclose` handler: marks disconnected and calls
`reconnect()` (it does not touch the keepalive interval). -/
def onClose (s : PState) : PState :=
  reconnect { s with connected := false }

/-- The delays handed to `setTimeout` over a run of consecutive connection
failures: each round, the pending reconnect timer fires (`connect()` runs and
`this.reconnectTimeout` is deleted), the attempt fails, and `onclose` marks
disconnected and calls `reconnect()`, which schedules the next attempt with
`FALLBACK_AND_WAIT_MS[this.currentWaitIndex]`. -/
def consecutiveFailureDelays : Nat → PState → List (Option Nat)
  | 0, _ => []
  | n + 1, s =>
    let s1 := connectAttempt { s with reconnectTimeout := false }
    let s2 := { s1 with connected := false }
    scheduledReconnectDelay s2 :: consecutiveFailureDelays n (reconnect s2)

/-- One per-channel update inside a PARAMETER frame
(`data[3].data.parameter[i]`): `parameter.id.name`,
`parameter.generationTimeUTC`, the wire engineering value (abstracted to an
integer) and the optional limit fields. -/
structure Parameter where
  name : String
  generationTimeUTC : String
  engValue : Int
  monitoringResult : Option String := none
  rangeCondition : Option String := none
  alarmRange : Option (List AlarmRange) := none
deriving DecidableEq

/-- The `data` object of an inbound frame body (`data[3].data`); only its
`parameter` list is read by the handler, and for EVENT frames the whole
object is delivered as-is. -/
structure FrameData where
  parameter : List Parameter := []
deriving DecidableEq

/-- An inbound frame body (`data[3]`): the `dt` discriminator and the `data`
object. -/
structure FrameBody where
  dt : String
  data : FrameData := {}
deriving DecidableEq

/-- One element of the decoded inbound array: the first three elements are
numbers (ack, request id, sequence), the fourth is the body object. -/
inductive FrameElem where
  | num (n : Int)
  | obj (b : FrameBody)
deriving DecidableEq

/-- The telemetry point built by the `onmessage` handler for one parameter
update, including the limit fields copied by `addLimitInformation`. -/
structure Point where
  id : String
  timestamp : String
  value : Int
  monitoringResult : Option String := none
  rangeCondition : Option String := none
  alarmRange : Option (List AlarmRange) := none
deriving DecidableEq

/-- Modelled from the spec: `addLimitInformation` from `../utils.js` is not
among the sources under verification; the spec describes it as "a
limit-annotation utility that copies monitoring-result / range-condition /
alarm-range fields from a wire update onto the sample before evaluation". -/
def addLimitInformation (parameter : Parameter) (point : Point) : Point :=
  { point with
      monitoringResult := parameter.monitoringResult,
      rangeCondition := parameter.rangeCondition,
      alarmRange := parameter.alarmRange }

/-- The point constructed for one parameter update:
`{ id: qualifiedNameToId(parameter.id.name), timestamp:
parameter.generationTimeUTC, value: getValue(parameter.engValue) }` followed
by `addLimitInformation(parameter, point)`.  `qualifiedNameToId` and
`getValue` live in `../utils.js` and are taken as parameters `qnToId` and
`getValue`. -/
def mkPoint (qnToId : String → String) (getValue : Int → Int)
    (parameter : Parameter) : Point :=
  addLimitInformation parameter
    { id := qnToId parameter.name,
      timestamp := parameter.generationTimeUTC,
      value := getValue parameter.engValue }

/-- One callback invocation performed by the `onmessage` handler: a telemetry
callback receiving a point, or the event callback receiving `data[3].data`
as-is. -/
inductive Invocation where
  | telemetry (cb : Nat) (point : Point)
  | event (cb : Nat) (data : FrameData)
deriving DecidableEq

/-- The `socket.onmessage` handler.  Frames shorter than four elements are
dropped.  For a PARAMETER body every contained update is resolved to a point
and delivered to the registered callback of its channel, if any; for an EVENT
body the event-channel callback, if registered, receives the body's data.
The handler reads `this.listener` but mutates no provider state, which is why
it returns only the list of invocations it performs, in order. -/
def handleMessage (qnToId : String → String) (getValue : Int → Int)
    (s : PState) (data : List FrameElem) : List Invocation :=
  if data.length < 4 then []
  else
    match data.get? 3 with
    | some (FrameElem.obj body) =>
      let ptInvs :=
        if body.dt == "PARAMETER" then
          body.data.parameter.filterMap (fun parameter =>
            let point := mkPoint qnToId getValue parameter
            (lookupKey s.listener point.id).map
              (fun cb => Invocation.telemetry cb point))
        else []
      let evInvs :=
        if body.dt == "EVENT" then
          match lookupKey s.listener EVENTS_OBJECT_TYPE with
          | some cb => [Invocation.event cb body.data]
          | none => []
        else []
      ptInvs ++ evInvs
    | _ => []

/-- A send oracle under which every `socket.send` succeeds. -/
def okOracle : Nat → Bool := fun _ => true

/-- The subscribe request `resubscribeToAll()` produces for one registered
identifier: the events identifier gets the event verb, every other identifier
the parameter-subscribe verb with its translated name. -/
def subMsgFor (trans : String → String) (id : String) : String :=
  if id == EVENTS_OBJECT_TYPE then eventSubscribeMsg else tlmSubscribeMsg (trans id)

/-- Reference characterization of the requests kept by `flushQueue()`: the
requests whose send attempt fails, where the attempt for the i-th queued
request (0-based) carries sequence number `seq + i + 1`. -/
def keptSpec (oracle : Nat → Bool) : Nat → List String → List String
  | _, [] => []
  | seq, r :: rs =>
    if oracle (seq + 1) then keptSpec oracle (seq + 1) rs
    else r :: keptSpec oracle (seq + 1) rs

/-- Reference characterization of the requests successfully sent by
`flushQueue()`. -/
def sentSpec (oracle : Nat → Bool) : Nat → List String → List String
  | _, [] => []
  | seq, r :: rs =>
    if oracle (seq + 1) then r :: sentSpec oracle (seq + 1) rs
    else sentSpec oracle (seq + 1) rs

section HelperLemmas

lemma reconnect_reconnectTimeout (s : PState) : (reconnect s).reconnectTimeout = true := by
  unfold reconnect
  split
  · next h => exact h
  · split <;> rfl

lemma reconnect_connected (s : PState) : (reconnect s).connected = s.connected := by
  unfold reconnect
  split
  · rfl
  · split <;> rfl

lemma reconnect_keepAliveArmed (s : PState) : (reconnect s).keepAliveArmed = s.keepAliveArmed := by
  unfold reconnect
  split
  · rfl
  · split <;> rfl

lemma reconnect_requests (s : PState) : (reconnect s).requests = s.requests := by
  unfold reconnect
  split
  · rfl
  · split <;> rfl

lemma reconnect_listener (s : PState) : (reconnect s).listener = s.listener := by
  unfold reconnect
  split
  · rfl
  · split <;> rfl

lemma reconnect_seqNo (s : PState) : (reconnect s).seqNo = s.seqNo := by
  unfold reconnect
  split
  · rfl
  · split <;> rfl

lemma find?_map_set (id : String) (v : Nat) :
    ∀ l : List (String × Nat), l.any (fun p => p.1 == id) = true →
      (l.map (fun p => if p.1 == id then (id, v) else p)).find? (fun p => p.1 == id) =
        some (id, v) := by
  intro l
  induction l with
  | nil => intro h; simp at h
  | cons q qs ih =>
    intro h
    by_cases hq : (q.1 == id) = true
    · rw [List.map_cons, if_pos hq]
      exact List.find?_cons_of_pos _ (by simp)
    · have hfalse : (q.1 == id) = false := Bool.eq_false_iff.mpr hq
      have hqs : qs.any (fun p => p.1 == id) = true := by
        rw [List.any_cons, hfalse, Bool.false_or] at h
        exact h
      rw [List.map_cons, if_neg hq]
      simp only [List.find?, hfalse]
      exact ih hqs

lemma lookupKey_setKey_self (l : List (String × Nat)) (id : String) (v : Nat) :
    lookupKey (setKey l id v) id = some v := by
  unfold setKey lookupKey
  split
  · next hany =>
    rw [find?_map_set id v l hany]
    rfl
  · next hany =>
    have hfalse : l.any (fun p => p.1 == id) = false :=
      Bool.eq_false_iff.mpr hany
    have hnone : l.find? (fun p => p.1 == id) = none := by
      refine List.find?_eq_none.mpr ?_
      intro x hx
      exact List.any_eq_false.mp hfalse x hx
    have hsingle : List.find? (fun p => p.1 == id) [(id, v)] = some (id, v) :=
      List.find?_cons_of_pos _ (by simp)
    rw [List.find?_append, hnone, hsingle]
    rfl

lemma find?_removeKey (id : String) :
    ∀ l : List (String × Nat),
      (removeKey l id).find? (fun p => p.1 == id) = none := by
  intro l
  induction l with
  | nil => rfl
  | cons q qs ih =>
    unfold removeKey
    by_cases hq : (q.1 == id) = true
    · rw [if_pos hq]
      exact ih
    · have hfalse : (q.1 == id) = false := Bool.eq_false_iff.mpr hq
      rw [if_neg hq]
      simp only [List.find?, hfalse]
      exact ih

lemma lookupKey_removeKey (l : List (String × Nat)) (id : String) :
    lookupKey (removeKey l id) id = none := by
  unfold lookupKey
  rw [find?_removeKey id l]
  rfl

lemma countP_key_eq_count (l : List (String × Nat)) (id : String) :
    l.countP (fun p => p.1 == id) = (l.map Prod.fst).count id := by
  rw [List.count_eq_countP, List.countP_map]
  rfl

lemma countKey_setKey_self (l : List (String × Nat)) (id : String) (v : Nat)
    (hnd : (l.map Prod.fst).Nodup) : countKey (setKey l id v) id = 1 := by
  unfold countKey setKey
  split
  · next hany =>
    have hpres : (l.map (fun p => if p.1 == id then (id, v) else p)).countP
        (fun p => p.1 == id) = l.countP (fun p => p.1 == id) := by
      rw [List.countP_map]
      refine List.countP_congr ?_
      intro x _
      by_cases hx : (x.1 == id) = true <;> simp [hx, Function.comp]
    rw [hpres, countP_key_eq_count]
    obtain ⟨p, hpmem, hpq⟩ := List.any_eq_true.mp hany
    have hmem : id ∈ l.map Prod.fst := by
      exact List.mem_map.mpr ⟨p, hpmem, eq_of_beq hpq⟩
    exact le_antisymm (List.nodup_iff_count_le_one.mp hnd id)
      (List.count_pos_iff.mpr hmem)
  · next hany =>
    rw [List.countP_append, countP_key_eq_count]
    have hzero : (l.map Prod.fst).count id = 0 := by
      refine List.count_eq_zero.mpr ?_
      intro hmem
      obtain ⟨p, hpmem, hpq⟩ := List.mem_map.mp hmem
      have : l.any (fun p => p.1 == id) = true :=
        List.any_eq_true.mpr ⟨p, hpmem, beq_iff_eq.mpr hpq⟩
      rw [this] at hany
      exact absurd hany (by simp)
    simp [hzero]

lemma nodup_keys_setKey (l : List (String × Nat)) (id : String) (v : Nat)
    (hnd : (l.map Prod.fst).Nodup) : ((setKey l id v).map Prod.fst).Nodup := by
  unfold setKey
  split
  · next hany =>
    have hkeys : (l.map (fun p => if p.1 == id then (id, v) else p)).map Prod.fst =
        l.map Prod.fst := by
      rw [List.map_map]
      refine List.map_congr_left ?_
      intro p _
      by_cases hp : (p.1 == id) = true
      · simp [hp, Function.comp]
        exact (eq_of_beq hp).symm
      · simp [hp, Function.comp]
    rw [hkeys]; exact hnd
  · next hany =>
    rw [List.map_append]
    refine List.Nodup.append hnd (by simp) ?_
    intro a ha hb
    simp only [List.map_cons, List.map_nil, List.mem_singleton] at hb
    rw [hb] at ha
    obtain ⟨p, hpmem, hpq⟩ := List.mem_map.mp ha
    have : l.any (fun p => p.1 == id) = true :=
      List.any_eq_true.mpr ⟨p, hpmem, beq_iff_eq.mpr hpq⟩
    rw [this] at hany
    exact absurd hany (by simp)

lemma sendOrQueueRequest_keepAliveArmed (oracle : Nat → Bool) (s : PState) (r : String) :
    ((sendOrQueueRequest oracle s r).1).keepAliveArmed = s.keepAliveArmed := by
  unfold sendOrQueueRequest sendRequest
  by_cases hc : s.connected = true
  · by_cases ho : oracle (s.seqNo + 1) = true
    · simp [hc, ho]
    · simp [hc, ho, reconnect_keepAliveArmed]
  · simp [hc]

lemma sendOrQueueRequest_listener (oracle : Nat → Bool) (s : PState) (r : String) :
    ((sendOrQueueRequest oracle s r).1).listener = s.listener := by
  unfold sendOrQueueRequest sendRequest
  by_cases hc : s.connected = true
  · by_cases ho : oracle (s.seqNo + 1) = true
    · simp [hc, ho]
    · simp [hc, ho, reconnect_listener]
  · simp [hc]

lemma sendOrQueueRequest_ok (s : PState) (r : String) (hc : s.connected = true) :
    sendOrQueueRequest okOracle s r = ({ s with seqNo := s.seqNo + 1 }, [r]) := by
  unfold sendOrQueueRequest sendRequest okOracle
  simp [hc]

lemma flushLoop_spec (oracle : Nat → Bool) :
    ∀ (rs : List String) (st : PState),
      (flushLoop oracle st rs).2.1 = keptSpec oracle st.seqNo rs ∧
      (flushLoop oracle st rs).2.2 = sentSpec oracle st.seqNo rs ∧
      (flushLoop oracle st rs).1.seqNo = st.seqNo + rs.length ∧
      (flushLoop oracle st rs).1.requests = st.requests ∧
      (flushLoop oracle st rs).1.listener = st.listener ∧
      (flushLoop oracle st rs).1.currentWaitIndex = st.currentWaitIndex ∧
      (flushLoop oracle st rs).1.reconnectTimeout = st.reconnectTimeout ∧
      (flushLoop oracle st rs).1.keepAliveArmed = st.keepAliveArmed ∧
      (flushLoop oracle st rs).1.connected =
        (if keptSpec oracle st.seqNo rs = [] then st.connected else false) := by
  intro rs
  induction rs with
  | nil =>
    intro st
    simp [flushLoop, keptSpec, sentSpec]
  | cons r rest ih =>
    intro st
    by_cases ho : oracle (st.seqNo + 1) = true
    · have h1 := ih { st with seqNo := st.seqNo + 1 }
      simp only [flushLoop, sendRequest, ho, if_true, keptSpec, sentSpec] at h1 ⊢
      refine ⟨h1.1, ?_, ?_, h1.2.2.2.1, h1.2.2.2.2.1, h1.2.2.2.2.2.1,
        h1.2.2.2.2.2.2.1, h1.2.2.2.2.2.2.2.1, h1.2.2.2.2.2.2.2.2⟩
      · rw [h1.2.1]
      · rw [h1.2.2.1]
        simp only [List.length_cons]
        omega
    · have hfalse : oracle (st.seqNo + 1) = false := Bool.eq_false_iff.mpr ho
      have h1 := ih { st with seqNo := st.seqNo + 1, connected := false }
      simp only [flushLoop, sendRequest, hfalse, Bool.false_eq_true, if_false,
        keptSpec, sentSpec] at h1 ⊢
      refine ⟨?_, h1.2.1, ?_, h1.2.2.2.1, h1.2.2.2.2.1, h1.2.2.2.2.2.1,
        h1.2.2.2.2.2.2.1, h1.2.2.2.2.2.2.2.1, ?_⟩
      · rw [h1.1]
      · rw [h1.2.2.1]
        simp only [List.length_cons]
        omega
      · rw [h1.2.2.2.2.2.2.2.2]
        split <;> rfl

lemma flushQueue_spec (oracle : Nat → Bool) (s : PState) :
    (flushQueue oracle s).1.requests = keptSpec oracle s.seqNo s.requests ∧
    (flushQueue oracle s).2 = sentSpec oracle s.seqNo s.requests ∧
    (flushQueue oracle s).1.seqNo = s.seqNo + s.requests.length ∧
    (flushQueue oracle s).1.listener = s.listener ∧
    (flushQueue oracle s).1.keepAliveArmed = s.keepAliveArmed ∧
    (keptSpec oracle s.seqNo s.requests = [] →
      (flushQueue oracle s).1.connected = s.connected ∧
      (flushQueue oracle s).1.reconnectTimeout = s.reconnectTimeout) ∧
    (keptSpec oracle s.seqNo s.requests ≠ [] →
      (flushQueue oracle s).1.connected = false ∧
      (flushQueue oracle s).1.reconnectTimeout = true) := by
  have h := flushLoop_spec oracle s.requests { s with requests := [] }
  unfold flushQueue
  by_cases hk : keptSpec oracle s.seqNo s.requests = []
  · have hempty : (flushLoop oracle { s with requests := [] } s.requests).2.1.isEmpty = true := by
      rw [h.1]
      simp [hk]
    simp only [hempty, if_true]
    refine ⟨by rw [h.1], by rw [h.2.1], by rw [h.2.2.1], by rw [h.2.2.2.2.1],
      by rw [h.2.2.2.2.2.2.2.1], ?_, ?_⟩
    · intro _
      constructor
      · rw [h.2.2.2.2.2.2.2.2]
        simp [hk]
      · rw [h.2.2.2.2.2.2.1]
    · intro hne
      exact absurd hk hne
  · have hempty : (flushLoop oracle { s with requests := [] } s.requests).2.1.isEmpty = false := by
      rw [h.1]
      cases hcase : keptSpec oracle s.seqNo s.requests with
      | nil => exact absurd hcase hk
      | cons a l => rfl
    simp only [hempty, Bool.false_eq_true, if_false]
    refine ⟨?_, by rw [h.2.1], ?_, ?_, ?_, ?_, ?_⟩
    · rw [reconnect_requests]
      rw [h.1]
    · rw [reconnect_seqNo]
      rw [h.2.2.1]
    · rw [reconnect_listener]
      rw [h.2.2.2.2.1]
    · rw [reconnect_keepAliveArmed]
      rw [h.2.2.2.2.2.2.2.1]
    · intro heq
      exact absurd heq hk
    · intro _
      constructor
      · rw [reconnect_connected]
        rw [h.2.2.2.2.2.2.2.2]
        simp [hk]
      · exact reconnect_reconnectTimeout _

lemma string_data_inj {a b : String} (h : a.data = b.data) : a = b := by
  cases a
  cases b
  exact congrArg String.mk h

lemma tlmSubscribeMsg_inj {a b : String} (h : tlmSubscribeMsg a = tlmSubscribeMsg b) :
    a = b := by
  have hd := congrArg String.data h
  unfold tlmSubscribeMsg at hd
  simp only [String.data_append] at hd
  exact string_data_inj (List.append_cancel_left (List.append_cancel_right hd))

lemma eventSubscribeMsg_ne_tlmSubscribeMsg (x : String) :
    eventSubscribeMsg ≠ tlmSubscribeMsg x := by
  intro h
  have hd := congrArg (fun s : String => s.data.take 2) h
  unfold eventSubscribeMsg tlmSubscribeMsg at hd
  simp only [String.data_append] at hd
  rw [List.append_assoc, List.take_append_of_le_length (by decide)] at hd
  revert hd
  decide

lemma subMsgFor_inj (trans : String → String)
    (hinj : ∀ a b, trans a = trans b → a = b) :
    Function.Injective (subMsgFor trans) := by
  intro a b h
  unfold subMsgFor at h
  by_cases ha : (a == EVENTS_OBJECT_TYPE) = true
  · by_cases hb : (b == EVENTS_OBJECT_TYPE) = true
    · exact (eq_of_beq ha).trans (eq_of_beq hb).symm
    · rw [if_pos ha, if_neg hb] at h
      exact absurd h (eventSubscribeMsg_ne_tlmSubscribeMsg _)
  · by_cases hb : (b == EVENTS_OBJECT_TYPE) = true
    · rw [if_neg ha, if_pos hb] at h
      exact absurd h.symm (eventSubscribeMsg_ne_tlmSubscribeMsg _)
    · rw [if_neg ha, if_neg hb] at h
      exact hinj a b (tlmSubscribeMsg_inj h)

lemma resubscribeLoop_ok (trans : String → String) :
    ∀ (ids : List String) (s : PState), s.connected = true →
      (resubscribeLoop okOracle trans s ids).2 = ids.map (subMsgFor trans) ∧
      (resubscribeLoop okOracle trans s ids).1.connected = true ∧
      (resubscribeLoop okOracle trans s ids).1.listener = s.listener := by
  intro ids
  induction ids with
  | nil =>
    intro s hc
    exact ⟨rfl, hc, rfl⟩
  | cons id rest ih =>
    intro s hc
    by_cases hid : (id == EVENTS_OBJECT_TYPE) = true
    · simp only [resubscribeLoop, hid, if_true, eventSubscribe,
        sendOrQueueRequest_ok s eventSubscribeMsg hc]
      have h2 := ih { s with seqNo := s.seqNo + 1 } hc
      refine ⟨?_, h2.2.1, h2.2.2⟩
      rw [h2.1, List.map_cons]
      simp [subMsgFor, hid]
    · simp only [resubscribeLoop, hid, Bool.false_eq_true, if_false, tlmSubscribe,
        sendOrQueueRequest_ok s (tlmSubscribeMsg (trans id)) hc]
      have h2 := ih { s with seqNo := s.seqNo + 1 } hc
      refine ⟨?_, h2.2.1, h2.2.2⟩
      rw [h2.1, List.map_cons]
      simp [subMsgFor, hid]

lemma resubscribeLoop_keepAliveArmed (oracle : Nat → Bool) (trans : String → String) :
    ∀ (ids : List String) (s : PState),
      ((resubscribeLoop oracle trans s ids).1).keepAliveArmed = s.keepAliveArmed := by
  intro ids
  induction ids with
  | nil => intro s; rfl
  | cons id rest ih =>
    intro s
    unfold resubscribeLoop
    by_cases hid : (id == EVENTS_OBJECT_TYPE) = true
    · simp only [hid, if_true, eventSubscribe]
      rw [ih, sendOrQueueRequest_keepAliveArmed]
    · simp only [hid, Bool.false_eq_true, if_false, tlmSubscribe]
      rw [ih, sendOrQueueRequest_keepAliveArmed]

end HelperLemmas

section Claims

/-- C1 (corrected) counterexample: on the initial state, which is not
connected, `subscribe` for channel "A" registers the listener entry but
leaves the Outbound Request Queue empty and sends nothing — so immediately
after `subscribe` returns, the registered entry has neither had a subscribe
message sent nor a pending queued message, contrary to the claim. -/
theorem subscribeWhileDisconnectedQueuesNothingCex :
    (subscribe okOracle (fun x => x) initState ("A") 0).1.requests = [] ∧
    (subscribe okOracle (fun x => x) initState ("A") 0).2 = [] ∧
    lookupKey (subscribe okOracle (fun x => x) initState ("A") 0).1.listener ("A") =
      some 0 := by
  refine ⟨rfl, rfl, rfl⟩

/-- C1 (corrected, amended): a channel registration performed while not
connected stores the callback but enqueues no subscribe control message and
sends nothing; the subscribe message for such an entry is only produced by
the resubscription sweep of the next successful open. -/
theorem subscribeWhileDisconnectedQueuesNothing (oracle : Nat → Bool)
    (trans : String → String) (s : PState) (id : String) (cb : Nat)
    (h : s.connected = false) :
    (subscribe oracle trans s id cb).1.requests = s.requests ∧
    (subscribe oracle trans s id cb).2 = [] ∧
    lookupKey (subscribe oracle trans s id cb).1.listener id = some cb := by
  unfold subscribe subscribeToEvent subscribeToTelemetry
  by_cases hid : (id == EVENTS_OBJECT_TYPE) = true
  · simp [hid, h, lookupKey_setKey_self]
  · simp [hid, h, lookupKey_setKey_self]

/-- C1 witness: instantiates the amended theorem on the initial state. -/
theorem subscribeWhileDisconnectedQueuesNothing_witness :
    initState.connected = false ∧
    (subscribe okOracle (fun x => x) initState ("B") 3).1.requests =
      initState.requests :=
  ⟨rfl,
    (subscribeWhileDisconnectedQueuesNothing okOracle (fun x => x) initState ("B") 3
      rfl).1⟩

/-- Send oracle for the C2 scenario: the send with sequence number 2 throws,
every other send succeeds. -/
def c2Oracle : Nat → Bool := fun n => n != 2

/-- C2 scenario state: connected, with three queued requests. -/
def c2State : PState :=
  { initState with connected := true, requests := ["a", "b", "c"] }

/-- C2 (corrected) counterexample: draining ["a", "b", "c"] when the second
send fails still attempts and sends "c" (the sent list is ["a", "c"]) and
leaves only ["b"] queued — the drain is not aborted at the first failure and
the remaining suffix ["b", "c"] does not stay queued, contrary to the
claim. -/
theorem flushQueueDoesNotAbortCex :
    (flushQueue c2Oracle c2State).2 = ["a", "c"] ∧
    (flushQueue c2Oracle c2State).1.requests = ["b"] ∧
    ¬(flushQueue c2Oracle c2State).1.requests = ["b", "c"] := by
  refine ⟨rfl, rfl, by decide⟩

/-- C2 (corrected, amended): draining attempts every queued message in
original order (the sequence number advances once per queued message, so none
is skipped); each message whose send fails stays queued, preserving relative
order, and each that succeeds is removed — even after an earlier failure; if
every send succeeds the connection flags are untouched, and if any send fails
the provider ends disconnected with a reconnect scheduled after the full
pass. -/
theorem flushQueueAttemptsAllInOrder (oracle : Nat → Bool) (s : PState) :
    (flushQueue oracle s).1.requests = keptSpec oracle s.seqNo s.requests ∧
    (flushQueue oracle s).2 = sentSpec oracle s.seqNo s.requests ∧
    (flushQueue oracle s).1.seqNo = s.seqNo + s.requests.length ∧
    (keptSpec oracle s.seqNo s.requests = [] →
      (flushQueue oracle s).1.connected = s.connected ∧
      (flushQueue oracle s).1.reconnectTimeout = s.reconnectTimeout) ∧
    (keptSpec oracle s.seqNo s.requests ≠ [] →
      (flushQueue oracle s).1.connected = false ∧
      (flushQueue oracle s).1.reconnectTimeout = true) := by
  have h := flushQueue_spec oracle s
  exact ⟨h.1, h.2.1, h.2.2.1, h.2.2.2.2.2.1, h.2.2.2.2.2.2⟩

/-- C2 witness: instantiates the amended theorem on the failing scenario. -/
theorem flushQueueAttemptsAllInOrder_witness :
    (flushQueue c2Oracle c2State).1.requests =
      keptSpec c2Oracle c2State.seqNo c2State.requests ∧
    (flushQueue c2Oracle c2State).1.connected = false :=
  ⟨(flushQueueAttemptsAllInOrder c2Oracle c2State).1,
    ((flushQueueAttemptsAllInOrder c2Oracle c2State).2.2.2.2 (by decide)).1⟩

/-- C3 (code_bug): over seven consecutive connection failures the scheduled
delays are the six table entries followed by `none` — the JavaScript
`undefined` produced by `FALLBACK_AND_WAIT_MS[6]`, which `setTimeout` treats
as 0 — while the claim's formula `schedule[min(N-1, len(schedule)-1)]` gives
30000 for the seventh failure.  The guard `currentWaitIndex <
FALLBACK_AND_WAIT_MS.length` lets the index reach the array length, so the
final duration is not reused; a successful open does reset the index to 0 as
claimed. -/
theorem seventhReconnectDelayOutOfTable :
    consecutiveFailureDelays 7 initState =
      [some 1000, some 5000, some 5000, some 10000, some 10000, some 30000, none] ∧
    FALLBACK_AND_WAIT_MS.get? (min (7 - 1) (FALLBACK_AND_WAIT_MS.length - 1)) =
      some 30000 ∧
    ((onOpen okOracle (fun x => x) initState).1).currentWaitIndex = 0 := by
  refine ⟨rfl, rfl, rfl⟩

/-- C4 scenario state: connected with the keepalive interval armed. -/
def c4State : PState := { initState with connected := true, keepAliveArmed := true }

/-- C4 (corrected) counterexample: from a connected state with the keepalive
interval armed, the close handler (and likewise the error handler) marks the
provider disconnected but leaves the keepalive interval armed — the timer is
not stopped on the transition to disconnected, contrary to the claim. -/
theorem keepaliveNotStoppedOnDisconnectCex :
    (onClose c4State).connected = false ∧
    (onClose c4State).keepAliveArmed = true ∧
    (onError c4State).keepAliveArmed = true := by
  refine ⟨rfl, rfl, rfl⟩

/-- C4 (corrected, amended): the keepalive interval is armed on successful
open, but the error and close handlers only mark the provider disconnected
and schedule a reconnect — neither clears the keepalive interval (the source
never calls `clearInterval`), so it stays in whatever state it had. -/
theorem keepaliveTimerHandlersBehavior (s : PState) (oracle : Nat → Bool)
    (trans : String → String) :
    (onError s).connected = false ∧
    (onError s).keepAliveArmed = s.keepAliveArmed ∧
    (onClose s).connected = false ∧
    (onClose s).keepAliveArmed = s.keepAliveArmed ∧
    ((onOpen oracle trans s).1).keepAliveArmed = true := by
  refine ⟨?_, ?_, ?_, ?_, ?_⟩
  · rw [onError, reconnect_connected]
  · rw [onError, reconnect_keepAliveArmed]
  · rw [onClose, reconnect_connected]
  · rw [onClose, reconnect_keepAliveArmed]
  · show ((onOpen oracle trans s).1).keepAliveArmed = true
    unfold onOpen resubscribeToAll
    rw [(flushQueue_spec oracle _).2.2.2.2.1, resubscribeLoop_keepAliveArmed]

/-- C5 scenario state: connected, channel "A" registered. -/
def c5State : PState := { initState with connected := true, listener := [("A", 0)] }

/-- C5 (corrected) counterexample: invoking the unsubscribe handle returned
for channel "A" twice sends the unsubscribe control message twice (once per
invocation) — there is no registration-epoch guard; the message moreover
names the channel "undefined" because `tlmUnsubscribe` is called without its
argument. -/
theorem doubleUnsubscribeSendsTwiceCex :
    ((tlmUnsubHandle okOracle c5State ("A")).2 ++
        (tlmUnsubHandle okOracle (tlmUnsubHandle okOracle c5State ("A")).1 ("A")).2).count
      (tlmUnsubscribeMsg ("undefined")) = 2 := by
  rfl

/-- C5 (corrected, amended): every invocation of the unsubscribe handle is
total (no error path: deleting an absent listener key is a no-op and a send
failure is caught and queued) and removes the listener entry, but each
invocation sends — or, when it cannot send, queues — one more unsubscribe
control message for the channel name "undefined"; nothing prevents a second
invocation from producing a second message. -/
theorem unsubscribeHandleNoEpochGuard (oracle : Nat → Bool) (s : PState)
    (id : String) :
    lookupKey ((tlmUnsubHandle oracle s id).1).listener id = none ∧
    (((tlmUnsubHandle oracle s id).2 = [tlmUnsubscribeMsg ("undefined")] ∧
        ((tlmUnsubHandle oracle s id).1).requests = s.requests) ∨
      ((tlmUnsubHandle oracle s id).2 = [] ∧
        ((tlmUnsubHandle oracle s id).1).requests =
          s.requests ++ [tlmUnsubscribeMsg ("undefined")])) := by
  constructor
  · exact lookupKey_removeKey _ _
  · unfold tlmUnsubHandle tlmUnsubscribe sendOrQueueRequest sendRequest jsArgString
    by_cases hc : s.connected = true
    · by_cases ho : oracle (s.seqNo + 1) = true
      · left
        simp [hc, ho]
      · right
        simp [hc, ho, reconnect_requests]
    · right
      simp [hc]

/-- C6 scenario state: connected, with a telemetry channel and the event
channel registered. -/
def c6State : PState :=
  { initState with connected := true, listener := [("A", 0), ("events", 1)] }

/-- C6 (confirmed): on a connected state whose sends succeed, the
resubscription sweep emits exactly the per-key subscribe messages, one per
registered listener entry in registration order (the event channel with its
own verb, every other channel with the parameter-subscribe verb and its
translated name); under an injective name translation the emitted messages
are pairwise distinct and a channel's subscribe message is emitted iff the
channel is registered. -/
theorem resubscribeSweepExact (trans : String → String)
    (hinj : ∀ a b, trans a = trans b → a = b)
    (s : PState) (hc : s.connected = true)
    (hnd : (s.listener.map Prod.fst).Nodup) :
    (resubscribeToAll okOracle trans s).2 =
      (s.listener.map Prod.fst).map (subMsgFor trans) ∧
    ((resubscribeToAll okOracle trans s).2).Nodup ∧
    ∀ c : String, subMsgFor trans c ∈ (resubscribeToAll okOracle trans s).2 ↔
      c ∈ s.listener.map Prod.fst := by
  have h := resubscribeLoop_ok trans (s.listener.map Prod.fst) s hc
  have hmap : (resubscribeToAll okOracle trans s).2 =
      (s.listener.map Prod.fst).map (subMsgFor trans) := h.1
  refine ⟨hmap, ?_, ?_⟩
  · rw [hmap]
    exact hnd.map (subMsgFor_inj trans hinj)
  · intro c
    rw [hmap]
    constructor
    · intro hm
      obtain ⟨k, hk, he⟩ := List.mem_map.mp hm
      rw [← subMsgFor_inj trans hinj he]
      exact hk
    · intro hm
      exact List.mem_map_of_mem _ hm

/-- C6 witness: instantiates the sweep theorem on a connected state with
channels "A" and "events" registered. -/
theorem resubscribeSweepExact_witness :
    (resubscribeToAll okOracle (fun x => x) c6State).2 =
      (c6State.listener.map Prod.fst).map (subMsgFor (fun x => x)) ∧
    subMsgFor (fun x => x) ("A") ∈ (resubscribeToAll okOracle (fun x => x) c6State).2 :=
  ⟨(resubscribeSweepExact (fun x => x) (fun a b h => h) c6State rfl (by decide)).1,
    ((resubscribeSweepExact (fun x => x) (fun a b h => h) c6State rfl
        (by decide)).2.2 ("A")).mpr (by decide)⟩

/-- The P5 scenario datum: CRITICAL monitoring result, HIGH range condition,
one alarm range with level CRITICAL and maxInclusive 42. -/
def critHighDatum : Datum :=
  { monitoringResult := some ("CRITICAL"), rangeCondition := some ("HIGH"),
    alarmRange := some [{ level := "CRITICAL", maxInclusive := some 42 }] }

/-- A datum whose matching alarm range carries both an inclusive and an
exclusive maximum. -/
def bothBoundsDatum : Datum :=
  { monitoringResult := some ("CRITICAL"),
    alarmRange :=
      some [{ level := "CRITICAL", maxInclusive := some 42, maxExclusive := some 43 }] }

/-- C7 (confirmed): the limit evaluator returns none for a datum without a
monitoring result and for an unrecognized monitoring result; on the P5
scenario datum it returns the descriptor whose style class joins the CRITICAL
and HIGH tokens with high = 42; and whenever the matching alarm range carries
a truthy exclusive bound, that exclusive value ends up in the descriptor,
overwriting any inclusive one. -/
theorem limitEvaluatorBehavior :
    (∀ d : Datum, d.monitoringResult = none → evaluate d = none) ∧
    (∀ (d : Datum) (mr : String), d.monitoringResult = some mr →
      MONITORING_RESULT_CSS mr = none → evaluate d = none) ∧
    evaluate critHighDatum =
      some { cssClass := "is-limit--red is-limit--upr", name := "CRITICAL",
             low := none, high := some 42 } ∧
    (∀ (d : Datum) (result : String) (er : EvaluationResult) (range : AlarmRange),
      findAlarmRange d result = some range →
      jsTruthyNum range.maxExclusive = true →
      (addLimitRange d result er).high = range.maxExclusive) ∧
    (∀ (d : Datum) (result : String) (er : EvaluationResult) (range : AlarmRange),
      findAlarmRange d result = some range →
      jsTruthyNum range.minExclusive = true →
      (addLimitRange d result er).low = range.minExclusive) := by
  refine ⟨?_, ?_, rfl, ?_, ?_⟩
  · intro d h
    unfold evaluate
    rw [h]
  · intro d mr h1 h2
    unfold evaluate
    rw [h1]
    dsimp only
    by_cases hne : (mr != "") = true
    · rw [if_pos hne, h2]
    · rw [if_neg hne]
  · intro d result er range h1 h2
    unfold addLimitRange
    rw [h1]
    simp only [h2, if_true, apply_ite EvaluationResult.high, ite_self]
  · intro d result er range h1 h2
    unfold addLimitRange
    rw [h1]
    simp only [h2, if_true, apply_ite EvaluationResult.low, ite_self]

/-- C7 witness: instantiates the evaluator theorem at concrete data. -/
theorem limitEvaluatorBehavior_witness :
    evaluate { monitoringResult := none } = none ∧
    (addLimitRange bothBoundsDatum ("CRITICAL")
        { cssClass := "is-limit--red", name := "CRITICAL" }).high = some 43 :=
  ⟨limitEvaluatorBehavior.1 { monitoringResult := none } rfl,
    limitEvaluatorBehavior.2.2.2.1 bothBoundsDatum ("CRITICAL") _ _ rfl rfl⟩

/-- The id field of a constructed point is the translated parameter name. -/
lemma mkPoint_id (qnToId : String → String) (getValue : Int → Int)
    (p : Parameter) : (mkPoint qnToId getValue p).id = qnToId p.name := rfl

/-- C8 (confirmed): registering a second callback for an already-registered
identifier replaces the stored callback — afterwards exactly one entry is
stored for the identifier (given the JavaScript-object invariant of unique
keys) and a PARAMETER frame for that channel invokes only the newest
callback. -/
theorem secondRegistrationReplaces (l : List (String × Nat)) (id : String)
    (cb1 cb2 : Nat) (hnd : (l.map Prod.fst).Nodup)
    (s : PState) (hs : s.listener = setKey (setKey l id cb1) id cb2)
    (qnToId : String → String) (getValue : Int → Int) (p : Parameter)
    (hp : qnToId p.name = id) (e1 e2 e3 : Int) :
    lookupKey s.listener id = some cb2 ∧
    countKey s.listener id = 1 ∧
    handleMessage qnToId getValue s
        [FrameElem.num e1, FrameElem.num e2, FrameElem.num e3,
          FrameElem.obj { dt := "PARAMETER", data := { parameter := [p] } }] =
      [Invocation.telemetry cb2 (mkPoint qnToId getValue p)] := by
  have hlook : lookupKey s.listener id = some cb2 := by
    rw [hs]
    exact lookupKey_setKey_self _ _ _
  refine ⟨hlook, ?_, ?_⟩
  · rw [hs]
    exact countKey_setKey_self _ _ _ (nodup_keys_setKey l id cb1 hnd)
  · have hlook2 : lookupKey s.listener (qnToId p.name) = some cb2 := by
      rw [hp]
      exact hlook
    unfold handleMessage
    rw [if_neg (by simp)]
    simp [mkPoint_id, hlook2]

/-- C8 scenario parameter update for channel "A". -/
def c8Param : Parameter := { name := "A", generationTimeUTC := "t0", engValue := 7 }

/-- C8 witness: two registrations for "A" followed by a PARAMETER frame. -/
theorem secondRegistrationReplaces_witness :
    lookupKey (setKey (setKey [] ("A") 0) ("A") 1) ("A") = some 1 ∧
    handleMessage (fun x => x) (fun v => v)
        { initState with listener := setKey (setKey [] ("A") 0) ("A") 1 }
        [FrameElem.num 1, FrameElem.num 1, FrameElem.num 5,
          FrameElem.obj { dt := "PARAMETER", data := { parameter := [c8Param] } }] =
      [Invocation.telemetry 1 (mkPoint (fun x => x) (fun v => v) c8Param)] :=
  ⟨(secondRegistrationReplaces [] ("A") 0 1 (by decide)
      { initState with listener := setKey (setKey [] ("A") 0) ("A") 1 } rfl
      (fun x => x) (fun v => v) c8Param rfl 1 1 5).1,
    (secondRegistrationReplaces [] ("A") 0 1 (by decide)
      { initState with listener := setKey (setKey [] ("A") 0) ("A") 1 } rfl
      (fun x => x) (fun v => v) c8Param rfl 1 1 5).2.2⟩

/-- C9 (confirmed): the message handler drops, without invoking any callback,
every frame shorter than four elements, every frame whose body discriminator
is neither PARAMETER nor EVENT (including a numeric fourth element, whose
`dt` is undefined), and every PARAMETER update whose channel has no
registered callback; the handler reads but never writes the provider state,
which the embedding reflects by returning only the performed invocations. -/
theorem malformedFramesDropped (qnToId : String → String) (getValue : Int → Int)
    (s : PState) :
    (∀ data : List FrameElem, data.length < 4 →
      handleMessage qnToId getValue s data = []) ∧
    (∀ (data : List FrameElem) (body : FrameBody),
      data.get? 3 = some (FrameElem.obj body) →
      body.dt ≠ "PARAMETER" → body.dt ≠ "EVENT" →
      handleMessage qnToId getValue s data = []) ∧
    (∀ (data : List FrameElem) (n : Int),
      data.get? 3 = some (FrameElem.num n) →
      handleMessage qnToId getValue s data = []) ∧
    (∀ (e1 e2 e3 : Int) (body : FrameBody), body.dt = "PARAMETER" →
      (∀ p ∈ body.data.parameter, lookupKey s.listener (qnToId p.name) = none) →
      handleMessage qnToId getValue s
        [FrameElem.num e1, FrameElem.num e2, FrameElem.num e3,
          FrameElem.obj body] = []) := by
  refine ⟨?_, ?_, ?_, ?_⟩
  · intro data h
    unfold handleMessage
    rw [if_pos h]
  · intro data body hget h1 h2
    have hb1 : (body.dt == "PARAMETER") = false := beq_eq_false_iff_ne.mpr h1
    have hb2 : (body.dt == "EVENT") = false := beq_eq_false_iff_ne.mpr h2
    unfold handleMessage
    split
    · rfl
    · rw [hget]
      simp [hb1, hb2]
  · intro data n hget
    unfold handleMessage
    split
    · rfl
    · rw [hget]
  · intro e1 e2 e3 body hdt hnone
    have hb1 : (body.dt == "PARAMETER") = true := by
      rw [hdt]
      decide
    have hb2 : (body.dt == "EVENT") = false := by
      rw [hdt]
      decide
    unfold handleMessage
    rw [if_neg (by simp)]
    simp only [List.get?_cons_succ, List.get?_cons_zero]
    simp only [hb1, if_true, hb2, Bool.false_eq_true, if_false, List.append_nil]
    refine List.filterMap_eq_nil_iff.mpr ?_
    intro p hp
    rw [mkPoint_id, hnone p hp]
    rfl

/-- C9 witness: a short frame and an unknown-discriminator frame are both
dropped. -/
theorem malformedFramesDropped_witness :
    handleMessage (fun x => x) (fun v => v) initState [FrameElem.num 1] = [] ∧
    handleMessage (fun x => x) (fun v => v) initState
      [FrameElem.num 1, FrameElem.num 1, FrameElem.num 5,
        FrameElem.obj { dt := "UNKNOWN" }] = [] :=
  ⟨(malformedFramesDropped (fun x => x) (fun v => v) initState).1
      [FrameElem.num 1] (by decide),
    (malformedFramesDropped (fun x => x) (fun v => v) initState).2.1
      _ { dt := "UNKNOWN" } rfl (by decide) (by decide)⟩

lemma addLimitRange_high_of_falsy (d : Datum) (result : String)
    (er : EvaluationResult) (range : AlarmRange)
    (hr : findAlarmRange d result = some range)
    (h1 : jsTruthyNum range.maxInclusive = false)
    (h2 : jsTruthyNum range.maxExclusive = false) :
    (addLimitRange d result er).high = er.high := by
  unfold addLimitRange
  rw [hr]
  simp only [h1, h2, Bool.false_eq_true, if_false,
    apply_ite EvaluationResult.high, ite_self]

lemma addLimitRange_low_of_falsy (d : Datum) (result : String)
    (er : EvaluationResult) (range : AlarmRange)
    (hr : findAlarmRange d result = some range)
    (h1 : jsTruthyNum range.minInclusive = false)
    (h2 : jsTruthyNum range.minExclusive = false) :
    (addLimitRange d result er).low = er.low := by
  unfold addLimitRange
  rw [hr]
  simp only [h1, h2, Bool.false_eq_true, if_false,
    apply_ite EvaluationResult.low, ite_self]

/-- C10 (confirmed): when the matching alarm range's bound fields are falsy —
absent, or present with value 0 (the last two conjuncts record that both are
falsy) — the evaluator leaves the corresponding low/high field of the
returned descriptor unset, because each bound is attached only when its value
is truthy. -/
theorem zeroOrAbsentBoundOmitted (d : Datum) (mr : String) (range : AlarmRange)
    (er : EvaluationResult)
    (hmr : d.monitoringResult = some mr)
    (hr : findAlarmRange d mr = some range)
    (hminI : jsTruthyNum range.minInclusive = false)
    (hminE : jsTruthyNum range.minExclusive = false)
    (hmaxI : jsTruthyNum range.maxInclusive = false)
    (hmaxE : jsTruthyNum range.maxExclusive = false)
    (hev : evaluate d = some er) :
    er.low = none ∧ er.high = none ∧
    jsTruthyNum (some 0) = false ∧ jsTruthyNum none = false := by
  refine ⟨?_, ?_, rfl, rfl⟩ <;>
  · unfold evaluate at hev
    rw [hmr] at hev
    dsimp only at hev
    by_cases hne : (mr != "") = true
    · rw [if_pos hne] at hev
      cases hcss : MONITORING_RESULT_CSS mr with
      | none =>
        rw [hcss] at hev
        exact absurd hev (by simp)
      | some css =>
        rw [hcss] at hev
        dsimp only at hev
        cases hrc : d.rangeCondition with
        | none =>
          rw [hrc] at hev
          dsimp only at hev
          have heq := (Option.some.inj hev).symm
          rw [heq]
        | some rc =>
          rw [hrc] at hev
          dsimp only at hev
          by_cases hrcne : (rc != "") = true
          · rw [if_pos hrcne] at hev
            cases hrcss : RANGE_CONDITION_CSS rc with
            | none =>
              rw [hrcss] at hev
              dsimp only at hev
              have heq := (Option.some.inj hev).symm
              rw [heq]
            | some rcss =>
              rw [hrcss] at hev
              dsimp only at hev
              have heq := (Option.some.inj hev).symm
              rw [heq]
              first
              | rw [addLimitRange_low_of_falsy d mr _ range hr hminI hminE]
              | rw [addLimitRange_high_of_falsy d mr _ range hr hmaxI hmaxE]
          · rw [if_neg hrcne] at hev
            have heq := (Option.some.inj hev).symm
            rw [heq]
    · rw [if_neg hne] at hev
      exact absurd hev (by simp)

/-- The C10 scenario datum: CRITICAL / HIGH with a matching alarm range whose
only bound is `maxInclusive: 0`. -/
def zeroBoundDatum : Datum :=
  { monitoringResult := some ("CRITICAL"), rangeCondition := some ("HIGH"),
    alarmRange := some [{ level := "CRITICAL", maxInclusive := some 0 }] }

/-- C10 witness: on the zero-bound datum the evaluator returns a descriptor
with neither low nor high set. -/
theorem zeroOrAbsentBoundOmitted_witness :
    evaluate zeroBoundDatum =
      some { cssClass := "is-limit--red is-limit--upr", name := "CRITICAL" } ∧
    ({ cssClass := "is-limit--red is-limit--upr", name := "CRITICAL" } :
      EvaluationResult).low = none ∧
    ({ cssClass := "is-limit--red is-limit--upr", name := "CRITICAL" } :
      EvaluationResult).high = none :=
  ⟨rfl,
    (zeroOrAbsentBoundOmitted zeroBoundDatum ("CRITICAL") _ _ rfl rfl rfl rfl rfl
      rfl rfl).1,
    (zeroOrAbsentBoundOmitted zeroBoundDatum ("CRITICAL") _ _ rfl rfl rfl rfl rfl
      rfl rfl).2.1⟩

end Claims

end OpenMctYamcs
